import Mathlib

/-!
Verification of the in-memory user CRUD service in `backend/app.py`.

The service keeps a global list `users_data` of user records (Python dicts
with keys `uuid, name, surname, email, company, jobTitle`, all strings) and
exposes four HTTP handlers: `get_users`, `create_user`, `update_user`,
`delete_user`.  We embed the handlers as pure functions from the parsed
request data and the current store to a `(Response, store)` pair: the Python
global mutation becomes explicit state passing, and the per-handler
`try/except` boundary becomes an `Except`-valued strip operation whose error
branch lands in the 500 response.
-/

namespace App

/-- A JSON value as produced by `request.get_json()`.  Numbers are modelled
as integers; the handlers never do arithmetic on them, they only matter as
non-string values on which `.strip()` raises. -/
inductive JValue where
  | jnull : JValue
  | jbool : Bool → JValue
  | jnum : Int → JValue
  | jstr : String → JValue
  | jarr : List JValue → JValue
  | jobj : List (String × JValue) → JValue

/-- A parsed JSON object body: a Python dict as an association list
(keys unique as produced by the JSON parser; lookup takes the first hit). -/
abbrev JObj := List (String × JValue)

/-- Python dict lookup `data[k]` / membership `k in data`: first binding of
the key, `none` when absent. -/
def lookup (data : JObj) (k : String) : Option JValue :=
  match data with
  | [] => none
  | (k', v) :: rest => if k' = k then some v else lookup rest k

/-- The message of the `AttributeError` that Python raises for `v.strip()`
when `v` is not a string. -/
def stripErrMsg : JValue → String
  | .jnull => "'NoneType' object has no attribute 'strip'"
  | .jbool _ => "'bool' object has no attribute 'strip'"
  | .jnum _ => "'int' object has no attribute 'strip'"
  | .jstr _ => "unreachable"
  | .jarr _ => "'list' object has no attribute 'strip'"
  | .jobj _ => "'dict' object has no attribute 'strip'"

/-- The characters Python's `str.strip()` removes (ASCII whitespace). -/
def isPyWhitespace (c : Char) : Bool :=
  c = ' ' || c = '\t' || c = '\n' || c = '\r' || c = '\x0b' || c = '\x0c'

/-- Python `s.strip()` on a string: drop leading and trailing whitespace. -/
def pyTrim (s : String) : String :=
  ⟨((s.data.dropWhile isPyWhitespace).reverse.dropWhile isPyWhitespace).reverse⟩

/-- Python `v.strip()`: trims leading/trailing whitespace of a string and
raises `AttributeError` on any non-string value. -/
def pyStrip : JValue → Except String String
  | .jstr s => .ok (pyTrim s)
  | v => .error (stripErrMsg v)

/-- Python `==` between a stored (string) email and an arbitrary JSON value:
equal strings compare equal, any non-string value compares unequal. -/
def pyEq (s : String) : JValue → Bool
  | .jstr t => s = t
  | _ => false

/-- One stored user record, the dict built in `create_user`
(`{"uuid": ..., "name": ..., "surname": ..., "email": ..., "company": ...,
"jobTitle": ...}`). -/
structure User where
  uuid : String
  name : String
  surname : String
  email : String
  company : String
  jobTitle : String
deriving DecidableEq, Repr

/-- The JSON serialization of a stored record, exactly the dict literal of
`create_user`: keys `uuid, name, surname, email, company, jobTitle`. -/
def userToJson (u : User) : JValue :=
  .jobj [("uuid", .jstr u.uuid), ("name", .jstr u.name),
         ("surname", .jstr u.surname), ("email", .jstr u.email),
         ("company", .jstr u.company), ("jobTitle", .jstr u.jobTitle)]

/-- An HTTP response: status code and JSON body. -/
structure Response where
  status : Nat
  body : JValue

/-- `jsonify({"error": msg})`. -/
def errObj (msg : String) : JValue := .jobj [("error", .jstr msg)]

/-- `required_fields = ['name', 'surname', 'email', 'company', 'jobTitle']` -/
def required_fields : List String :=
  ["name", "surname", "email", "company", "jobTitle"]

/-- The validation loop of `create_user`:
`for field in required_fields: if field not in data or not data[field].strip(): return 400`.
Returns `.ok (some f)` for the first failing field `f`, `.ok none` when all
pass, and `.error e` when `.strip()` raises (caught by the handler's
`except`). -/
def checkRequired (fields : List String) (data : JObj) : Except String (Option String) :=
  match fields with
  | [] => .ok none
  | f :: rest =>
    match lookup data f with
    | none => .ok (some f)
    | some v =>
      match pyStrip v with
      | .error e => .error e
      | .ok s => if s = "" then .ok (some f) else checkRequired rest data

/-- `POST /api/users` (`create_user`).  `newId` stands for the freshly drawn
`str(uuid.uuid4())`; `data` is the parsed JSON object body.  Returns the
response and the store after the request. -/
def create_user (newId : String) (data : JObj) (users_data : List User) :
    Response × List User :=
  match checkRequired required_fields data with
  | .error e => (⟨500, errObj e⟩, users_data)
  | .ok (some f) => (⟨400, errObj ("Missing required field: " ++ f)⟩, users_data)
  | .ok none =>
    match lookup data "email" with
    | none => (⟨500, errObj "'email'"⟩, users_data)
    | some ev =>
      if users_data.any (fun u => pyEq u.email ev) then
        (⟨400, errObj "Email already exists"⟩, users_data)
      else
        match pyStrip ((lookup data "name").getD .jnull),
              pyStrip ((lookup data "surname").getD .jnull),
              pyStrip (ev),
              pyStrip ((lookup data "company").getD .jnull),
              pyStrip ((lookup data "jobTitle").getD .jnull) with
        | .ok n, .ok s, .ok e, .ok c, .ok j =>
          let new_user : User := ⟨newId, n, s, e, c, j⟩
          (⟨201, userToJson new_user⟩, users_data ++ [new_user])
        | .error m, _, _, _, _ => (⟨500, errObj m⟩, users_data)
        | _, .error m, _, _, _ => (⟨500, errObj m⟩, users_data)
        | _, _, .error m, _, _ => (⟨500, errObj m⟩, users_data)
        | _, _, _, .error m, _ => (⟨500, errObj m⟩, users_data)
        | _, _, _, _, .error m => (⟨500, errObj m⟩, users_data)

/-- `PUT /api/users/<user_uuid>` (`update_user`).  `body` is the outcome of
`request.get_json()`: `.error e` when parsing raises (caught as 500).  The
handler finds the first record with matching `uuid` and returns it
unchanged; the body's contents are never read. -/
def update_user (body : Except String JValue) (user_uuid : String)
    (users_data : List User) : Response × List User :=
  match body with
  | .error e => (⟨500, errObj e⟩, users_data)
  | .ok _ =>
    match users_data.find? (fun u => u.uuid == user_uuid) with
    | none => (⟨404, errObj "User not found"⟩, users_data)
    | some u => (⟨200, userToJson u⟩, users_data)

/-- The removal loop of `delete_user`: scan for the first record whose
`uuid` matches, `pop` it, and return it with the remaining list. -/
def removeFirst (user_uuid : String) : List User → Option (User × List User)
  | [] => none
  | u :: rest =>
    if u.uuid = user_uuid then some (u, rest)
    else
      match removeFirst user_uuid rest with
      | none => none
      | some (d, rest') => some (d, u :: rest')

/-- `DELETE /api/users/<user_uuid>` (`delete_user`). -/
def delete_user (user_uuid : String) (users_data : List User) :
    Response × List User :=
  match removeFirst user_uuid users_data with
  | some (d, rest) =>
    (⟨200, .jobj [("message", .jstr "User deleted successfully"),
                  ("user", userToJson d)]⟩, rest)
  | none => (⟨404, errObj "User not found"⟩, users_data)

/-- `GET /api/users` (`get_users`). -/
def get_users (users_data : List User) : Response × List User :=
  (⟨200, .jobj [("users", .jarr (users_data.map userToJson))]⟩, users_data)

/-- One HTTP request against the service, with the parsed body and (for
POST) the drawn uuid made explicit. -/
inductive Request where
  | post (newId : String) (data : JObj) : Request
  | put (body : Except String JValue) (user_uuid : String) : Request
  | delete (user_uuid : String) : Request
  | getAll : Request

/-- The store transition of one request (the response is dropped). -/
def step (users_data : List User) : Request → List User
  | .post newId data => (create_user newId data users_data).2
  | .put body user_uuid => (update_user body user_uuid users_data).2
  | .delete user_uuid => (delete_user user_uuid users_data).2
  | .getAll => (get_users users_data).2

/-- Run a sequence of requests from a store state. -/
def run (users_data : List User) : List Request → List User
  | [] => users_data
  | r :: rs => run (step users_data r) rs

/-- A store state reachable from the empty store. -/
def Reachable (s : List User) : Prop := ∃ rs : List Request, run [] rs = s

/-- No two stored records have equal `email` values. -/
def EmailsUnique (s : List User) : Prop := (s.map User.email).Nodup

instance : DecidablePred EmailsUnique := fun s =>
  inferInstanceAs (Decidable (s.map User.email).Nodup)

/-- The keys of a JSON object (empty for non-objects). -/
def jsonKeys : JValue → List String
  | .jobj l => l.map Prod.fst
  | _ => []

/-- Field access on a JSON object value. -/
def jget (v : JValue) (k : String) : Option JValue :=
  match v with
  | .jobj l => lookup l k
  | _ => none

/-- Whether a JSON value is a string. -/
def isStr : JValue → Bool
  | .jstr _ => true
  | _ => false

/-- Whether a JSON value is an object all of whose values are strings. -/
def allValuesStr : JValue → Bool
  | .jobj l => l.all fun kv => isStr kv.2
  | _ => false

/-- The keys of the record dict built by `create_user`, in construction
order. -/
def userKeys : List String :=
  ["uuid", "name", "surname", "email", "company", "jobTitle"]

/-- A JSON value shaped like a serialized user record: exactly the keys
`uuid, name, surname, email, company, jobTitle`, each bound to a string. -/
def IsUserShape (v : JValue) : Prop :=
  jsonKeys v = userKeys ∧ allValuesStr v = true

instance : DecidablePred IsUserShape := fun v =>
  inferInstanceAs (Decidable (jsonKeys v = userKeys ∧ allValuesStr v = true))

/-- Whether every value of a JSON object body is a string. -/
def allStringValues (data : JObj) : Bool := data.all fun kv => isStr kv.2

/-- Spec-side formulation of the validation loop, from the spec's words:
the first field of the fixed order `name, surname, email, company, jobTitle`
that is absent from the body or empty after trimming. -/
def specFirstMissing (data : JObj) : Option String :=
  required_fields.find? fun f =>
    match lookup data f with
    | some (.jstr w) => pyTrim w = ""
    | _ => true

/-- A request whose POST email input (when present and a string) carries no
leading or trailing whitespace; non-POST requests qualify vacuously. -/
def trimmedEmailPost : Request → Bool
  | .post _ data =>
    match lookup data "email" with
    | some (.jstr w) => pyTrim w = w
    | _ => true
  | _ => true

/-- The spec's example body:
`{"name":" Ana ","surname":"Lee","email":"a@x.com","company":"Acme","jobTitle":"Eng"}`. -/
def data0 : JObj :=
  [("name", .jstr " Ana "), ("surname", .jstr "Lee"), ("email", .jstr "a@x.com"),
   ("company", .jstr "Acme"), ("jobTitle", .jstr "Eng")]

/-- A second valid body whose email is `" a@x.com"`: equal to `data0`'s
email after trimming, different from it before. -/
def data1 : JObj :=
  [("name", .jstr "Bob"), ("surname", .jstr "Kim"), ("email", .jstr " a@x.com"),
   ("company", .jstr "Acme"), ("jobTitle", .jstr "Eng")]

/-- A body with `name` present and every later required field absent. -/
def dataMissing : JObj := [("name", .jstr "Ana")]

/-- A body whose `surname` is bound to a number. -/
def dataNum : JObj :=
  [("name", .jstr "Ana"), ("surname", .jnum 5), ("email", .jstr "a@x.com"),
   ("company", .jstr "Acme"), ("jobTitle", .jstr "Eng")]

/-! ### Helper lemmas about the store scans -/

lemma find?_of_first {p : User → Bool} (l1 : List User) (u : User) (l2 : List User)
    (h1 : ∀ w ∈ l1, p w = false) (hu : p u = true) :
    (l1 ++ u :: l2).find? p = some u := by
  induction l1 with
  | nil => simp [List.find?_cons_of_pos, hu]
  | cons a l ih =>
    have ha : p a = false := h1 a (by simp)
    rw [List.cons_append, List.find?_cons_of_neg _ (by simp [ha])]
    exact ih fun w hw => h1 w (by simp [hw])

lemma removeFirst_eq_none (id : String) (s : List User)
    (h : ∀ u ∈ s, u.uuid ≠ id) : removeFirst id s = none := by
  induction s with
  | nil => rfl
  | cons a l ih =>
    have ha : a.uuid ≠ id := h a (by simp)
    simp [removeFirst, ha, ih fun u hu => h u (by simp [hu])]

lemma removeFirst_of_first (id : String) (l1 : List User) (u : User) (l2 : List User)
    (h1 : ∀ w ∈ l1, w.uuid ≠ id) (hu : u.uuid = id) :
    removeFirst id (l1 ++ u :: l2) = some (u, l1 ++ l2) := by
  induction l1 with
  | nil => simp [removeFirst, hu]
  | cons a l ih =>
    have ha : a.uuid ≠ id := h1 a (by simp)
    simp [removeFirst, ha, ih fun w hw => h1 w (by simp [hw])]

lemma removeFirst_sublist (id : String) (s : List User) (d : User) (rest : List User)
    (h : removeFirst id s = some (d, rest)) : rest.Sublist s := by
  induction s generalizing rest with
  | nil => simp [removeFirst] at h
  | cons a l ih =>
    by_cases ha : a.uuid = id
    · simp [removeFirst, ha] at h
      rw [h.2.symm]
      exact List.sublist_cons_self a l
    · simp [removeFirst, ha] at h
      rcases hrec : removeFirst id l with _ | ⟨d', rest'⟩
      · rw [hrec] at h; simp at h
      · rw [hrec] at h
        simp at h
        rcases h with ⟨h1, h2⟩
        rw [← h2]
        exact List.Sublist.cons₂ a (ih rest' (by rw [hrec, h1]))

/-! ### Helper lemmas about `create_user` -/

lemma lookup_mem (data : JObj) (k : String) (v : JValue)
    (h : lookup data k = some v) : (k, v) ∈ data := by
  induction data with
  | nil => simp [lookup] at h
  | cons kv rest ih =>
    rcases kv with ⟨k', v'⟩
    by_cases hk : k' = k
    · subst hk
      simp [lookup] at h
      simp [h]
    · simp [lookup, hk] at h
      exact List.mem_cons_of_mem _ (ih h)

lemma checkRequired_ok_field (fields : List String) (data : JObj)
    (h : checkRequired fields data = .ok none) :
    ∀ f ∈ fields, ∃ w, lookup data f = some (.jstr w) ∧ pyTrim w ≠ "" := by
  induction fields with
  | nil => intro f hf; simp at hf
  | cons f rest ih =>
    rcases hl : lookup data f with _ | v
    · simp only [checkRequired, hl] at h
      simp at h
    · simp only [checkRequired, hl] at h
      rcases v with _ | b | m | w | xs | fs <;> simp [pyStrip] at h
      by_cases he : pyTrim w = ""
      · simp [he] at h
      · simp only [he, if_false] at h
        intro g hg
        rcases List.mem_cons.mp hg with hg | hg
        · subst hg; exact ⟨w, hl, he⟩
        · exact ih h g hg

lemma checkRequired_ok_of (fields : List String) (data : JObj)
    (h : ∀ f ∈ fields, ∃ w, lookup data f = some (.jstr w) ∧ pyTrim w ≠ "") :
    checkRequired fields data = .ok none := by
  induction fields with
  | nil => rfl
  | cons f rest ih =>
    obtain ⟨w, hl, he⟩ := h f (by simp)
    simp only [checkRequired, hl, pyStrip, he, if_false]
    exact ih fun g hg => h g (by simp [hg])

lemma create_user_201 (newId : String) (data : JObj) (s : List User)
    (w1 w2 w3 w4 w5 : String)
    (h1 : lookup data "name" = some (.jstr w1))
    (h2 : lookup data "surname" = some (.jstr w2))
    (h3 : lookup data "email" = some (.jstr w3))
    (h4 : lookup data "company" = some (.jstr w4))
    (h5 : lookup data "jobTitle" = some (.jstr w5))
    (e1 : pyTrim w1 ≠ "") (e2 : pyTrim w2 ≠ "") (e3 : pyTrim w3 ≠ "")
    (e4 : pyTrim w4 ≠ "") (e5 : pyTrim w5 ≠ "")
    (hfresh : ∀ u ∈ s, u.email ≠ w3) :
    create_user newId data s =
      (⟨201, userToJson ⟨newId, pyTrim w1, pyTrim w2, pyTrim w3, pyTrim w4, pyTrim w5⟩⟩,
        s ++ [⟨newId, pyTrim w1, pyTrim w2, pyTrim w3, pyTrim w4, pyTrim w5⟩]) := by
  have hck : checkRequired required_fields data = .ok none := by
    apply checkRequired_ok_of
    intro f hf
    simp only [required_fields, List.mem_cons, List.not_mem_nil, or_false] at hf
    rcases hf with rfl | rfl | rfl | rfl | rfl
    · exact ⟨w1, h1, e1⟩
    · exact ⟨w2, h2, e2⟩
    · exact ⟨w3, h3, e3⟩
    · exact ⟨w4, h4, e4⟩
    · exact ⟨w5, h5, e5⟩
  have hany : s.any (fun u => pyEq u.email (.jstr w3)) = false := by
    apply List.any_eq_false.mpr
    intro u hu
    simp [pyEq, hfresh u hu]
  simp [create_user, hck, h1, h2, h3, h4, h5, hany, pyStrip]

lemma create_user_dup (newId : String) (data : JObj) (s : List User) (ev : JValue)
    (hck : checkRequired required_fields data = .ok none)
    (hem : lookup data "email" = some ev)
    (hdup : s.any (fun u => pyEq u.email ev) = true) :
    create_user newId data s = (⟨400, errObj "Email already exists"⟩, s) := by
  simp [create_user, hck, hem, hdup]

lemma create_user_missing (newId : String) (data : JObj) (s : List User) (f : String)
    (hck : checkRequired required_fields data = .ok (some f)) :
    create_user newId data s =
      (⟨400, errObj ("Missing required field: " ++ f)⟩, s) := by
  simp [create_user, hck]

lemma create_user_raise (newId : String) (data : JObj) (s : List User) (e : String)
    (hck : checkRequired required_fields data = .error e) :
    create_user newId data s = (⟨500, errObj e⟩, s) := by
  simp [create_user, hck]

lemma create_user_cases (newId : String) (data : JObj) (s : List User) :
    ((create_user newId data s).1.status ≠ 201 ∧ (create_user newId data s).2 = s) ∨
    (∃ w nu, lookup data "email" = some (.jstr w) ∧ (∀ u ∈ s, u.email ≠ w) ∧
      nu.email = pyTrim w ∧
      create_user newId data s = (⟨201, userToJson nu⟩, s ++ [nu])) := by
  rcases hck : checkRequired required_fields data with e | o
  · left
    rw [create_user_raise newId data s e hck]
    simp
  · rcases o with _ | f
    · rcases hem : lookup data "email" with _ | ev
      · left
        simp [create_user, hck, hem]
      · by_cases hdup : s.any (fun u => pyEq u.email ev) = true
        · left
          rw [create_user_dup newId data s ev hck hem hdup]
          simp
        · have hdup' : s.any (fun u => pyEq u.email ev) = false :=
            Bool.eq_false_iff.mpr hdup
          have hfields := checkRequired_ok_field required_fields data hck
          obtain ⟨w1, h1, e1⟩ := hfields "name" (by simp [required_fields])
          obtain ⟨w2, h2, e2⟩ := hfields "surname" (by simp [required_fields])
          obtain ⟨w3, h3, e3⟩ := hfields "email" (by simp [required_fields])
          obtain ⟨w4, h4, e4⟩ := hfields "company" (by simp [required_fields])
          obtain ⟨w5, h5, e5⟩ := hfields "jobTitle" (by simp [required_fields])
          have hev : ev = .jstr w3 := by
            have h' := hem.symm.trans h3
            injection h'
          subst hev
          have hfresh : ∀ u ∈ s, u.email ≠ w3 := by
            intro u hu
            have := List.any_eq_false.mp hdup' u hu
            simpa [pyEq] using this
          right
          exact ⟨w3, ⟨newId, pyTrim w1, pyTrim w2, pyTrim w3, pyTrim w4, pyTrim w5⟩,
            rfl, hfresh, rfl,
            create_user_201 newId data s w1 w2 w3 w4 w5 h1 h2 h3 h4 h5 e1 e2 e3 e4 e5 hfresh⟩
    · left
      rw [create_user_missing newId data s f hck]
      simp

/-! ### PUT (`update_user`) -/

lemma update_user_store_eq (body : Except String JValue) (user_uuid : String)
    (s : List User) : (update_user body user_uuid s).2 = s := by
  unfold update_user
  rcases body with e | v
  · rfl
  · rcases h : s.find? (fun u => u.uuid == user_uuid) with _ | u <;> simp [h]

/-- Claim C7 (confirmed): the PUT handler never mutates the store, for every
body outcome (parsed or failed) and every path id. -/
theorem C7_put_frame (body : Except String JValue) (user_uuid : String)
    (s : List User) : (update_user body user_uuid s).2 = s :=
  update_user_store_eq body user_uuid s

/-- Claim C6 (confirmed): with a well-formed body, PUT responds 404 `User not
found` when no stored record's uuid matches, and 200 with the first matching
record exactly as stored — regardless of the body's contents. -/
theorem C6_put_lookup (v : JValue) (user_uuid : String) (s : List User) :
    ((∀ u ∈ s, u.uuid ≠ user_uuid) →
      update_user (.ok v) user_uuid s = (⟨404, errObj "User not found"⟩, s)) ∧
    (∀ l1 u l2, s = l1 ++ u :: l2 → (∀ w ∈ l1, w.uuid ≠ user_uuid) →
      u.uuid = user_uuid →
      update_user (.ok v) user_uuid s = (⟨200, userToJson u⟩, s)) := by
  constructor
  · intro h
    have hf : s.find? (fun u => u.uuid == user_uuid) = none :=
      List.find?_eq_none.mpr fun u hu => by simp [h u hu]
    simp [update_user, hf]
  · intro l1 u l2 hs h1 hu
    subst hs
    have hf : (l1 ++ u :: l2).find? (fun w => w.uuid == user_uuid) = some u :=
      find?_of_first l1 u l2 (fun w hw => by simp [h1 w hw]) (by simp [hu])
    simp [update_user, hf]

/-- Witness for C6 at a concrete store. -/
theorem C6_put_lookup_w :
    update_user (.ok .jnull) "z" [⟨"a", "n", "s", "e", "c", "j"⟩] =
      (⟨404, errObj "User not found"⟩, [⟨"a", "n", "s", "e", "c", "j"⟩]) ∧
    update_user (.ok .jnull) "a" [⟨"a", "n", "s", "e", "c", "j"⟩] =
      (⟨200, userToJson ⟨"a", "n", "s", "e", "c", "j"⟩⟩,
        [⟨"a", "n", "s", "e", "c", "j"⟩]) := by
  constructor
  · exact (C6_put_lookup .jnull "z" [⟨"a", "n", "s", "e", "c", "j"⟩]).1
      (by intro u hu; simp at hu; simp [hu])
  · exact (C6_put_lookup .jnull "a" [⟨"a", "n", "s", "e", "c", "j"⟩]).2
      [] ⟨"a", "n", "s", "e", "c", "j"⟩ [] rfl (by simp) rfl

/-! ### DELETE (`delete_user`) -/

/-- Claim C8 (confirmed): DELETE removes the first record whose uuid matches
(later records keep their values and order) and responds 200 with the
deleted-user message; with no match it responds 404 and leaves the store
unchanged. -/
theorem C8_delete (user_uuid : String) (s : List User) :
    ((∀ u ∈ s, u.uuid ≠ user_uuid) →
      delete_user user_uuid s = (⟨404, errObj "User not found"⟩, s)) ∧
    (∀ l1 u l2, s = l1 ++ u :: l2 → (∀ w ∈ l1, w.uuid ≠ user_uuid) →
      u.uuid = user_uuid →
      delete_user user_uuid s =
        (⟨200, .jobj [("message", .jstr "User deleted successfully"),
                      ("user", userToJson u)]⟩, l1 ++ l2)) := by
  constructor
  · intro h
    simp [delete_user, removeFirst_eq_none user_uuid s h]
  · intro l1 u l2 hs h1 hu
    subst hs
    simp [delete_user, removeFirst_of_first user_uuid l1 u l2 h1 hu]

/-- Witness for C8 at a concrete store. -/
theorem C8_delete_w :
    delete_user "z" [⟨"a", "n", "s", "e", "c", "j"⟩] =
      (⟨404, errObj "User not found"⟩, [⟨"a", "n", "s", "e", "c", "j"⟩]) ∧
    delete_user "a" [⟨"a", "n", "s", "e", "c", "j"⟩] =
      (⟨200, .jobj [("message", .jstr "User deleted successfully"),
                    ("user", userToJson ⟨"a", "n", "s", "e", "c", "j"⟩)]⟩, []) := by
  constructor
  · exact (C8_delete "z" [⟨"a", "n", "s", "e", "c", "j"⟩]).1
      (by intro u hu; simp at hu; simp [hu])
  · exact (C8_delete "a" [⟨"a", "n", "s", "e", "c", "j"⟩]).2
      [] ⟨"a", "n", "s", "e", "c", "j"⟩ [] rfl (by simp) rfl

/-! ### POST (`create_user`): the four claims C3, C4, C5, C10 -/

/-- Claim C3 (confirmed): a POST whose five required fields are present as
strings that are non-empty after trimming, and whose email differs from
every stored record's email, yields 201 with the new record — the five
inputs trimmed plus the generated identifier — appended at the end of the
store; prior records are unchanged in place and order and the store grows
by one. -/
theorem C3_create_success (newId : String) (data : JObj) (s : List User)
    (w1 w2 w3 w4 w5 : String)
    (h1 : lookup data "name" = some (.jstr w1))
    (h2 : lookup data "surname" = some (.jstr w2))
    (h3 : lookup data "email" = some (.jstr w3))
    (h4 : lookup data "company" = some (.jstr w4))
    (h5 : lookup data "jobTitle" = some (.jstr w5))
    (e1 : pyTrim w1 ≠ "") (e2 : pyTrim w2 ≠ "") (e3 : pyTrim w3 ≠ "")
    (e4 : pyTrim w4 ≠ "") (e5 : pyTrim w5 ≠ "")
    (hfresh : ∀ u ∈ s, u.email ≠ w3) (hid : newId ≠ "") :
    create_user newId data s =
      (⟨201, userToJson ⟨newId, pyTrim w1, pyTrim w2, pyTrim w3, pyTrim w4, pyTrim w5⟩⟩,
        s ++ [⟨newId, pyTrim w1, pyTrim w2, pyTrim w3, pyTrim w4, pyTrim w5⟩]) ∧
    (create_user newId data s).2.length = s.length + 1 ∧
    newId ≠ "" := by
  have h := create_user_201 newId data s w1 w2 w3 w4 w5 h1 h2 h3 h4 h5 e1 e2 e3 e4 e5 hfresh
  exact ⟨h, by rw [h]; simp, hid⟩

/-- Witness for C3 at the spec's example body. -/
theorem C3_create_success_w :
    create_user "u-1" data0 [] =
      (⟨201, userToJson ⟨"u-1", "Ana", "Lee", "a@x.com", "Acme", "Eng"⟩⟩,
        [⟨"u-1", "Ana", "Lee", "a@x.com", "Acme", "Eng"⟩]) :=
  (C3_create_success "u-1" data0 [] " Ana " "Lee" "a@x.com" "Acme" "Eng"
    rfl rfl rfl rfl rfl (by decide) (by decide) (by decide) (by decide) (by decide)
    (by simp) (by decide)).1

lemma lookup_isStr (data : JObj) (k : String) (v : JValue)
    (hstr : allStringValues data = true) (h : lookup data k = some v) :
    ∃ w, v = .jstr w := by
  simp only [allStringValues] at hstr
  have hv := List.all_eq_true.mp hstr _ (lookup_mem data k v h)
  simp only at hv
  cases v <;> first | exact ⟨_, rfl⟩ | simp [isStr] at hv

lemma checkRequired_eq_find (fields : List String) (data : JObj)
    (hstr : allStringValues data = true) :
    checkRequired fields data =
      .ok (fields.find? fun f =>
        match lookup data f with
        | some (.jstr w) => pyTrim w = ""
        | _ => true) := by
  induction fields with
  | nil => rfl
  | cons f rest ih =>
    rcases hl : lookup data f with _ | v
    · rw [List.find?_cons_of_pos _ (by simp [hl])]
      simp only [checkRequired, hl]
    · obtain ⟨w, rfl⟩ := lookup_isStr data f v hstr hl
      by_cases he : pyTrim w = ""
      · rw [List.find?_cons_of_pos _ (by simp [hl, he])]
        simp only [checkRequired, hl, pyStrip, he, if_true]
      · rw [List.find?_cons_of_neg _ (by simp [hl, he])]
        simp only [checkRequired, hl, pyStrip, he, if_false]
        exact ih

/-- Claim C4 (confirmed): a POST whose body is an object of string values
with some required field absent or whitespace-only yields 400 naming the
first failing field of the fixed order, and leaves the store unchanged. -/
theorem C4_missing_field (newId : String) (data : JObj) (s : List User) (f : String)
    (hstr : allStringValues data = true) (hf : specFirstMissing data = some f) :
    create_user newId data s =
      (⟨400, errObj ("Missing required field: " ++ f)⟩, s) := by
  have hck : checkRequired required_fields data = .ok (some f) := by
    unfold specFirstMissing at hf
    rw [checkRequired_eq_find required_fields data hstr, hf]
  exact create_user_missing newId data s f hck

/-- Witness for C4: a body with only `name` fails on `surname`. -/
theorem C4_missing_field_w :
    create_user "u-1" dataMissing [] =
      (⟨400, errObj "Missing required field: surname"⟩, []) :=
  C4_missing_field "u-1" dataMissing [] "surname" (by decide) rfl

/-- Claim C5 (confirmed): past the missing-field checks, POST yields 400
`Email already exists` (appending nothing) when some stored record's email
equals the incoming untrimmed email exactly, and yields 201 precisely when
no stored record's email equals it. -/
theorem C5_duplicate_email (newId : String) (data : JObj) (s : List User) (w : String)
    (hck : checkRequired required_fields data = .ok none)
    (hem : lookup data "email" = some (.jstr w)) :
    ((∃ u ∈ s, u.email = w) →
      create_user newId data s = (⟨400, errObj "Email already exists"⟩, s)) ∧
    ((create_user newId data s).1.status = 201 ↔ ∀ u ∈ s, u.email ≠ w) := by
  have hdup_iff : s.any (fun u => pyEq u.email (.jstr w)) = true ↔ ∃ u ∈ s, u.email = w := by
    rw [List.any_eq_true]
    constructor
    · rintro ⟨u, hu, hp⟩
      exact ⟨u, hu, by simpa [pyEq] using hp⟩
    · rintro ⟨u, hu, hp⟩
      exact ⟨u, hu, by simp [pyEq, hp]⟩
  refine ⟨fun hdup => create_user_dup newId data s (.jstr w) hck hem (hdup_iff.mpr hdup), ?_, ?_⟩
  · intro h201 u hu hne
    have hdup := hdup_iff.mpr ⟨u, hu, hne⟩
    rw [create_user_dup newId data s (.jstr w) hck hem hdup] at h201
    simp at h201
  · intro hfresh
    have hfields := checkRequired_ok_field required_fields data hck
    obtain ⟨w1, h1, e1⟩ := hfields "name" (by simp [required_fields])
    obtain ⟨w2, h2, e2⟩ := hfields "surname" (by simp [required_fields])
    obtain ⟨w3, h3, e3⟩ := hfields "email" (by simp [required_fields])
    obtain ⟨w4, h4, e4⟩ := hfields "company" (by simp [required_fields])
    obtain ⟨w5, h5, e5⟩ := hfields "jobTitle" (by simp [required_fields])
    have hw : w3 = w := by
      have h' := h3.symm.trans hem
      injection h' with h''
      injection h''
    subst hw
    rw [create_user_201 newId data s w1 w2 w3 w4 w5 h1 h2 h3 h4 h5 e1 e2 e3 e4 e5 hfresh]

/-- Witness for C5: the second POST of the same email is rejected. -/
theorem C5_duplicate_email_w :
    create_user "u-2" data0 [⟨"u-1", "Bob", "Kim", "a@x.com", "Acme", "Eng"⟩] =
      (⟨400, errObj "Email already exists"⟩,
        [⟨"u-1", "Bob", "Kim", "a@x.com", "Acme", "Eng"⟩]) :=
  (C5_duplicate_email "u-2" data0 [⟨"u-1", "Bob", "Kim", "a@x.com", "Acme", "Eng"⟩]
    "a@x.com" rfl rfl).1 ⟨⟨"u-1", "Bob", "Kim", "a@x.com", "Acme", "Eng"⟩, by simp, rfl⟩

lemma checkRequired_append_good (pre fields2 : List String) (data : JObj)
    (hpre : ∀ g ∈ pre, ∃ w, lookup data g = some (.jstr w) ∧ pyTrim w ≠ "") :
    checkRequired (pre ++ fields2) data = checkRequired fields2 data := by
  induction pre with
  | nil => rfl
  | cons g l ih =>
    obtain ⟨w, hl, he⟩ := hpre g (by simp)
    simp only [List.cons_append, checkRequired, hl, pyStrip, he, if_false]
    exact ih fun g' hg' => hpre g' (by simp [hg'])

lemma pyStrip_nonstr (v : JValue) (h : isStr v = false) :
    pyStrip v = .error (stripErrMsg v) := by
  cases v <;> first | rfl | simp [isStr] at h

/-- Claim C10 (confirmed): when some required field is bound to a non-string
value and every earlier field of the fixed order is a non-empty string, the
`.strip()` call raises, the catch-all converts it to a 500 `error` response
(not a 400), and the store is unchanged. -/
theorem C10_nonstring_500 (newId : String) (data : JObj) (s : List User)
    (pre rest : List String) (f : String) (v : JValue)
    (hsplit : required_fields = pre ++ f :: rest)
    (hpre : ∀ g ∈ pre, ∃ w, lookup data g = some (.jstr w) ∧ pyTrim w ≠ "")
    (hv : lookup data f = some v) (hns : isStr v = false) :
    create_user newId data s = (⟨500, errObj (stripErrMsg v)⟩, s) ∧
    (create_user newId data s).1.status ≠ 400 := by
  have hck : checkRequired required_fields data = .error (stripErrMsg v) := by
    rw [hsplit, checkRequired_append_good pre (f :: rest) data hpre]
    simp only [checkRequired, hv, pyStrip_nonstr v hns]
  have h := create_user_raise newId data s (stripErrMsg v) hck
  exact ⟨h, by rw [h]; simp⟩

/-- Witness for C10: `surname` bound to the number 5. -/
theorem C10_nonstring_500_w :
    create_user "u-1" dataNum [] =
      (⟨500, errObj "'int' object has no attribute 'strip'"⟩, []) :=
  (C10_nonstring_500 "u-1" dataNum [] ["name"] ["email", "company", "jobTitle"]
    "surname" (.jnum 5) rfl
    (by intro g hg; simp at hg; subst hg; exact ⟨"Ana", rfl, by decide⟩)
    rfl rfl).1

/-! ### Atomicity (C9) -/

/-- Claim C9 (confirmed): every error response leaves the store exactly as
it was — POST with status 400 or 500, PUT always, DELETE with status 404. -/
theorem C9_atomic (newId : String) (data : JObj) (body : Except String JValue)
    (uid1 uid2 : String) (s : List User) :
    (((create_user newId data s).1.status = 400 ∨
      (create_user newId data s).1.status = 500) →
      (create_user newId data s).2 = s) ∧
    (update_user body uid1 s).2 = s ∧
    ((delete_user uid2 s).1.status = 404 → (delete_user uid2 s).2 = s) := by
  refine ⟨?_, update_user_store_eq body uid1 s, ?_⟩
  · intro h
    rcases create_user_cases newId data s with ⟨_, h2⟩ | ⟨w, nu, _, _, _, hequ⟩
    · exact h2
    · rw [hequ] at h
      simp at h
  · intro h
    rcases hrm : removeFirst uid2 s with _ | ⟨d, rest⟩
    · simp [delete_user, hrm]
    · simp [delete_user, hrm] at h

/-- Witness for C9: a failing POST and a failing DELETE on a concrete
store leave it untouched. -/
theorem C9_atomic_w :
    (create_user "u-1" dataMissing [] ).2 = [] ∧
    (delete_user "z" []).2 = ([] : List User) :=
  ⟨(C9_atomic "u-1" dataMissing (.ok .jnull) "a" "z" []).1 (.inl (by decide)),
    (C9_atomic "u-1" dataMissing (.ok .jnull) "a" "z" []).2.2 (by decide)⟩

/-! ### The email uniqueness invariant (C1) -/

/-- Claim C1 as stated is false: the duplicate check compares the incoming
untrimmed email against stored trimmed emails, so an email that differs
from a stored one only by surrounding whitespace slips through and is then
stored trimmed.  Two POSTs with emails `"a@x.com"` and `" a@x.com"` reach a
store with two records of email `"a@x.com"`. -/
theorem C1_counterexample :
    Reachable (run [] [.post "u-1" data0, .post "u-2" data1]) ∧
    ¬ EmailsUnique (run [] [.post "u-1" data0, .post "u-2" data1]) :=
  ⟨⟨[.post "u-1" data0, .post "u-2" data1], rfl⟩, by decide⟩

lemma step_emails_unique (s : List User) (r : Request)
    (hs : EmailsUnique s) (hr : trimmedEmailPost r = true) :
    EmailsUnique (step s r) := by
  rcases r with ⟨newId, data⟩ | ⟨body, uid⟩ | uid | _
  · rcases create_user_cases newId data s with ⟨_, h2⟩ | ⟨w, nu, hw, hfresh, hemail, hequ⟩
    · simpa [step, h2] using hs
    · have htrim : pyTrim w = w := by
        simp only [trimmedEmailPost, hw] at hr
        simpa using hr
      have hnu : nu.email = w := by rw [hemail, htrim]
      simp only [step, hequ]
      simp only [EmailsUnique, List.map_append] at hs ⊢
      apply List.Nodup.append hs (by simp)
      intro a ha hb
      simp only [List.map_cons, List.map_nil, List.mem_singleton] at hb
      obtain ⟨u, hu, hue⟩ := List.mem_map.mp ha
      exact hfresh u hu (hue.trans (hb.trans hnu))
  · simpa [step, update_user_store_eq] using hs
  · rcases hrm : removeFirst uid s with _ | ⟨d, rest⟩
    · simpa [step, delete_user, hrm] using hs
    · have hsub : (rest.map User.email).Sublist (s.map User.email) :=
        (removeFirst_sublist uid s d rest hrm).map _
      simp only [EmailsUnique] at hs ⊢
      simpa [step, delete_user, hrm] using List.Nodup.sublist hsub hs
  · simpa [step, get_users] using hs

lemma run_emails_unique (rs : List Request) (s : List User)
    (hs : EmailsUnique s) (h : ∀ r ∈ rs, trimmedEmailPost r = true) :
    EmailsUnique (run s rs) := by
  induction rs generalizing s with
  | nil => exact hs
  | cons r rest ih =>
    exact ih (step s r) (step_emails_unique s r hs (h r (by simp)))
      fun r' hr' => h r' (by simp [hr'])

/-- Claim C1 amended (corrected): the email-uniqueness invariant holds for
every store reachable by requests whose POST email inputs carry no leading
or trailing whitespace; without that restriction it fails (see the
counterexample). -/
theorem C1_email_unique_trimmed (rs : List Request)
    (h : ∀ r ∈ rs, trimmedEmailPost r = true) : EmailsUnique (run [] rs) :=
  run_emails_unique rs [] (by simp [EmailsUnique]) h

/-- Witness for C1 on a concrete trimmed-email request sequence. -/
theorem C1_email_unique_trimmed_w :
    EmailsUnique (run [] [.post "u-1" data0, .delete "u-1"]) :=
  C1_email_unique_trimmed [.post "u-1" data0, .delete "u-1"]
    (by intro r hr; simp at hr; rcases hr with rfl | rfl <;> decide)

/-! ### The shape of returned records (C2) -/

/-- Claim C2 as stated is false: the identifier key of every returned
record is `"uuid"`, not `"id"` — shown here on the 201 response to the
spec's example POST. -/
theorem C2_counterexample :
    (create_user "u-1" data0 []).1.status = 201 ∧
    "id" ∉ jsonKeys (create_user "u-1" data0 []).1.body ∧
    jsonKeys (create_user "u-1" data0 []).1.body = userKeys := by
  refine ⟨by decide, by decide, by decide⟩

/-- Claim C2 amended (corrected): every user record in a successful
response is a JSON object with exactly the keys
`uuid, name, surname, email, company, jobTitle`, each bound to a string:
the 201 POST body, the 200 PUT body, the `"user"` field of the 200 DELETE
body, and every element of the `"users"` array of GET. -/
theorem C2_user_shape (newId : String) (data : JObj) (v : JValue)
    (uid1 uid2 : String) (s : List User) :
    (∀ u : User, IsUserShape (userToJson u)) ∧
    ((create_user newId data s).1.status = 201 →
      IsUserShape (create_user newId data s).1.body) ∧
    ((update_user (.ok v) uid1 s).1.status = 200 →
      IsUserShape (update_user (.ok v) uid1 s).1.body) ∧
    ((delete_user uid2 s).1.status = 200 →
      ∃ w, jget (delete_user uid2 s).1.body "user" = some w ∧ IsUserShape w) ∧
    (jget (get_users s).1.body "users" = some (.jarr (s.map userToJson)) ∧
      ∀ w ∈ s.map userToJson, IsUserShape w) := by
  have hshape : ∀ u : User, IsUserShape (userToJson u) := fun u => ⟨rfl, rfl⟩
  refine ⟨hshape, ?_, ?_, ?_, ?_, ?_⟩
  · intro h
    rcases create_user_cases newId data s with ⟨hne, _⟩ | ⟨w, nu, _, _, _, hequ⟩
    · exact absurd h hne
    · rw [hequ]
      exact hshape nu
  · intro h
    rcases hf : s.find? (fun u => u.uuid == uid1) with _ | u
    · simp [update_user, hf] at h
    · simp only [update_user, hf]
      exact hshape u
  · intro h
    rcases hrm : removeFirst uid2 s with _ | ⟨d, rest⟩
    · simp [delete_user, hrm] at h
    · exact ⟨userToJson d, by simp [delete_user, hrm, jget, lookup], hshape d⟩
  · simp [get_users, jget, lookup]
  · intro w hw
    obtain ⟨u, _, hu⟩ := List.mem_map.mp hw
    rw [← hu]
    exact hshape u

/-- Witness for C2 on the 201 response to the example POST. -/
theorem C2_user_shape_w : IsUserShape (create_user "u-1" data0 []).1.body :=
  (C2_user_shape "u-1" data0 .jnull "a" "b" []).2.1 (by decide)

end App
